import Mathlib

/-!
Shallow embedding of `src/app.py` (AI-Travel-Planner): a Streamlit page that
collects trip parameters, performs four SerpAPI lookups (attractions, hotels,
flights, weather), fills a fixed prompt template, calls an LLM chain, and
renders the results.  Dynamic Python values flowing out of the provider are
modelled by the JSON-like type `JVal`; Python exceptions are modelled by
`Except String`; the Streamlit widget stream is modelled by `List Widget`.
-/

/-- Dynamic (JSON-like) Python value, as returned by `search.get_dict()`. -/
inductive JVal where
  | null
  | jbool (b : Bool)
  | num (n : Int)
  | str (s : String)
  | arr (xs : List JVal)
  | obj (kvs : List (String × JVal))

mutual

/-- Python `repr` on `JVal` (used by `str()` for non-string values). -/
def reprJ : JVal → String
  | .null => "None"
  | .jbool b => cond b "True" "False"
  | .num n => toString n
  | .str s => "\x27" ++ s ++ "\x27"
  | .arr xs => "[" ++ reprJList xs ++ "]"
  | .obj kvs => "\x7b" ++ reprJObj kvs ++ "\x7d"

/-- Comma-separated reprs of the elements of a Python list. -/
def reprJList : List JVal → String
  | [] => ""
  | [x] => reprJ x
  | x :: y :: xs => reprJ x ++ ", " ++ reprJList (y :: xs)

/-- Comma-separated reprs of the entries of a Python dict. -/
def reprJObj : List (String × JVal) → String
  | [] => ""
  | [(k, v)] => "\x27" ++ k ++ "\x27: " ++ reprJ v
  | (k, v) :: kv :: kvs => "\x27" ++ k ++ "\x27: " ++ reprJ v ++ ", " ++ reprJObj (kv :: kvs)

end

/-- Python `str()` / f-string conversion of a dynamic value. -/
def pyStr : JVal → String
  | .str s => s
  | j => reprJ j

/-- Python truthiness, as tested by the `or` operator. -/
def pyTruthy : JVal → Bool
  | .null => false
  | .jbool b => b
  | .num n => n != 0
  | .str s => !(s == "")
  | .arr xs => !xs.isEmpty
  | .obj kvs => !kvs.isEmpty

/-- Python `x.get(key, default)`: raises `AttributeError` when `x` is not a
dict (this is how a malformed provider response blows up a lookup). -/
def pyGet : JVal → String → JVal → Except String JVal
  | .obj kvs, k, d => .ok ((kvs.lookup k).getD d)
  | _, _, _ => .error "AttributeError: object has no attribute get"

/-- Python `x[:5]` followed by iteration, as in `results.get(..., [])[:5]`:
lists are sliced to their first five items, strings to their first five
characters (each yielded as a one-character string), and every other value
raises `TypeError`. -/
def pySlice5Iter : JVal → Except String (List JVal)
  | .arr xs => .ok (xs.take 5)
  | .str s => .ok ((s.data.take 5).map fun c => JVal.str (String.mk [c]))
  | _ => .error "TypeError: value is not subscriptable"

/-- Python list comprehension over an already-materialised list: evaluates the
body left to right and raises at the first failing element. -/
def pyListComp {α β : Type} (f : α → Except String β) : List α → Except String (List β)
  | [] => .ok []
  | x :: xs => do
    let y ← f x
    let ys ← pyListComp f xs
    pure (y :: ys)

/-- Python `sep.join(xs)`: requires every element to be a `str`, otherwise
raises `TypeError`. -/
def pyJoin (sep : String) (xs : List JVal) : Except String String :=
  if xs.all (fun j => match j with | .str _ => true | _ => false) then
    .ok (String.intercalate sep (xs.map pyStr))
  else
    .error "TypeError: sequence item: expected str instance"

/-- Trip parameters collected by the input widgets.  The two dates are kept in
their `str()` form, which is the only form the program ever uses. -/
structure Trip where
  departure : String
  destination : String
  start_date : String
  end_date : String
  budget : String
  interests : String
deriving DecidableEq

/-- One outbound SerpAPI query: the `params` dict passed to `GoogleSearch`. -/
structure SerpQuery where
  engine : String
  params : List (String × String)
deriving DecidableEq

/-- Params of the attractions search (`app.py` lines 87-91). -/
def attractionsQuery (key : String) (t : Trip) : SerpQuery :=
  { engine := "google"
    params := [("q", "Top tourist attractions in " ++ t.destination), ("api_key", key)] }

/-- Params of the hotels search (`app.py` lines 101-107). -/
def hotelsQuery (key : String) (t : Trip) : SerpQuery :=
  { engine := "google_hotels"
    params := [("q", "Hotels in " ++ t.destination),
               ("check_in_date", t.start_date),
               ("check_out_date", t.end_date),
               ("api_key", key)] }

/-- Params of the flights search (`app.py` lines 118-126). -/
def flightsQuery (key : String) (t : Trip) : SerpQuery :=
  { engine := "google_flights"
    params := [("departure_id", t.departure),
               ("arrival_id", t.destination),
               ("outbound_date", t.start_date),
               ("return_date", t.end_date),
               ("currency", "INR"),
               ("api_key", key)] }

/-- Params of the weather search (`app.py` lines 139-143). -/
def weatherQuery (key : String) (t : Trip) : SerpQuery :=
  { engine := "google"
    params := [("q", "Weather in " ++ t.destination), ("api_key", key)] }

/-- The ten keyword arguments of the `travel_chain.run(...)` call. -/
structure GenCall where
  departure : String
  destination : String
  start_date : String
  end_date : String
  budget : String
  interests : String
  places : String
  weather : String
  hotels : String
  flights : String
deriving DecidableEq

/-- External world: provider responses per query, and the LLM chain outcome per
invocation.  `Except.error` models a raised exception. -/
structure Oracle where
  serp : SerpQuery → Except String JVal
  generate : GenCall → Except String String

/-- Body of the attractions try-block (`app.py` lines 87-94). -/
def attractionsBody (resp : Except String JVal) : Except String (List JVal) := do
  let results ← resp
  let org ← pyGet results "organic_results" (.arr [])
  let items ← pySlice5Iter org
  pyListComp (fun res => pyGet res "title" .null) items

/-- The attractions lookup with its except-handler (`app.py` lines 85-96).  It
is a total function: no exception escapes it. -/
def attractionsLookup (resp : Except String JVal) : List JVal :=
  match attractionsBody resp with
  | .ok v => v
  | .error _ => [.str "No attractions found"]

/-- Body of the hotels try-block (`app.py` lines 100-111). -/
def hotelsBody (resp : Except String JVal) : Except String (List String) := do
  let results ← resp
  let props ← pyGet results "properties" (.arr [])
  let items ← pySlice5Iter props
  pyListComp (fun hotel => do
    let name ← pyGet hotel "name" .null
    let rate ← pyGet hotel "rate_per_night" (.obj [])
    let lowest ← pyGet rate "lowest" (.str "N/A")
    pure (pyStr name ++ " - " ++ pyStr lowest ++ " INR")) items

/-- The hotels lookup with its except-handler (`app.py` lines 99-113). -/
def hotelsLookup (resp : Except String JVal) : List String :=
  match hotelsBody resp with
  | .ok v => v
  | .error _ => ["No hotels found"]

/-- Body of the flights try-block (`app.py` lines 117-132). -/
def flightsBody (resp : Except String JVal) : Except String (List String) := do
  let results ← resp
  let best ← pyGet results "best_flights" (.arr [])
  let items ← pySlice5Iter best
  pyListComp (fun flight => do
    let airline ← pyGet flight "airline" .null
    let price ← pyGet flight "price" .null
    pure (pyStr airline ++ " - " ++ pyStr price ++ " INR")) items

/-- The flights lookup with its except-handler (`app.py` lines 116-134). -/
def flightsLookup (resp : Except String JVal) : List String :=
  match flightsBody resp with
  | .ok v => v
  | .error _ => ["No flights found"]

/-- Body of the weather try-block (`app.py` lines 138-146), including the
`or "Weather info not found"` truthiness fallback. -/
def weatherBody (resp : Except String JVal) : Except String JVal := do
  let results ← resp
  let box ← pyGet results "answer_box" (.obj [])
  let temp ← pyGet box "temperature" .null
  pure (if pyTruthy temp then temp else .str "Weather info not found")

/-- The weather lookup with its except-handler (`app.py` lines 136-148). -/
def weatherLookup (resp : Except String JVal) : JVal :=
  match weatherBody resp with
  | .ok v => v
  | .error _ => .str "Weather API error"

/-- Value of `attractions` after step 1 of a run. -/
def attractionsOf (key : String) (o : Oracle) (t : Trip) : List JVal :=
  attractionsLookup (o.serp (attractionsQuery key t))

/-- Value of `hotels` after step 2 of a run. -/
def hotelsOf (key : String) (o : Oracle) (t : Trip) : List String :=
  hotelsLookup (o.serp (hotelsQuery key t))

/-- Value of `flights` after step 3 of a run. -/
def flightsOf (key : String) (o : Oracle) (t : Trip) : List String :=
  flightsLookup (o.serp (flightsQuery key t))

/-- Value of `weather` after step 4 of a run. -/
def weatherOf (key : String) (o : Oracle) (t : Trip) : JVal :=
  weatherLookup (o.serp (weatherQuery key t))

/-- The ten keyword arguments passed to `travel_chain.run` (`app.py` lines
151-162): the six trip fields as collected, the joined attractions, the
`str()` of the weather value, and the joined hotel and flight lists. -/
def genCallArgs (t : Trip) (places : String) (weather : JVal)
    (hotels flights : List String) : GenCall :=
  { departure := t.departure
    destination := t.destination
    start_date := t.start_date
    end_date := t.end_date
    budget := t.budget
    interests := t.interests
    places := places
    weather := pyStr weather
    hotels := String.intercalate ", " hotels
    flights := String.intercalate ", " flights }

/-- Append-based join of a list of strings (the shape of a filled template). -/
def strJoin : List String → String
  | [] => ""
  | s :: ss => s ++ strJoin ss

/-- The fixed prompt template (`app.py` lines 19-65), split at its ten
placeholders and interleaved with the substituted values, exactly as
`PromptTemplate.format` produces it. -/
def promptSegments (g : GenCall) : List String :=
  [ "\nYou are an AI Travel Planner.  \nYour task is to create a **realistic and detailed day-wise itinerary**.\n\n### Trip Details:\n- Departure City: ",
    g.departure,
    "  \n- Destination City: ",
    g.destination,
    "  \n- Travel Dates: ",
    g.start_date,
    " to ",
    g.end_date,
    "  \n- Total Budget: Rs ",
    g.budget,
    "  \n- Traveler Interests: ",
    g.interests,
    "  \n\n### Available Information:\n- Recommended Attractions: ",
    g.places,
    "  \n- Weather Forecast: ",
    g.weather,
    "  \n- Hotel Options: ",
    g.hotels,
    "  \n- Flight Options: ",
    g.flights,
    "  \n\n---\n\n### Instructions:\n1. Create a **day-wise itinerary** in table format.  \n2. Each day should include Morning, Afternoon, and Evening activities.  \n3. Suggest hotels, food, and give weather-based tips.  \n4. Show estimated costs in INR per day.  \n5. At the end, provide a **summary table** of the trip with total cost, recommended hotel, and best flight option.  \n\n---\n\n### Output Format:\n\n#### Day-Wise Itinerary\n| Day | Morning Activities | Afternoon Activities | Evening Activities | Hotel Suggestion | Food Recommendations | Tips | Estimated Cost (INR) |\n|-----|--------------------|----------------------|-------------------|------------------|----------------------|------|----------------------|\n\n(Fill this table for each day of the trip)\n\n---\n\n#### Trip Summary\n| Item                | Recommendation |\n|---------------------|----------------|\n| Total Estimated Cost | ... |\n| Best Flight Option   | ... |\n| Recommended Hotel    | ... |\n| Key Highlights       | ... |\n\n    " ]

/-- The filled prompt submitted to the model for a given set of arguments. -/
def promptOf (g : GenCall) : String :=
  strJoin (promptSegments g)

/-- The ten substituted values, in template order. -/
def genCallVals (g : GenCall) : List String :=
  [g.departure, g.destination, g.start_date, g.end_date, g.budget,
   g.interests, g.places, g.weather, g.hotels, g.flights]

/-- One Streamlit widget emitted during a run. -/
inductive Widget where
  | success (msg : String)
  | subheader (title : String)
  | write (text : String)
  | markdown (text : String)
  | error (msg : String)
deriving DecidableEq

/-- One external call made during a run. -/
inductive ExtCall where
  | serp (q : SerpQuery)
  | generate (g : GenCall)
deriving DecidableEq

/-- The four provider calls of a run, in program order. -/
def fourCalls (key : String) (t : Trip) : List ExtCall :=
  [.serp (attractionsQuery key t),
   .serp (hotelsQuery key t),
   .serp (flightsQuery key t),
   .serp (weatherQuery key t)]

/-- The display sequence of a successful run (`app.py` lines 164-178). -/
def displaySeq (attractions : List JVal) (hotels flights : List String)
    (weather : JVal) (itinerary : String) : List Widget :=
  [Widget.success "✅ Itinerary generated!",
   Widget.subheader "📍 Suggested Attractions"]
  ++ attractions.map (fun place => Widget.write ("- " ++ pyStr place))
  ++ [Widget.subheader "🏨 Hotel Options"]
  ++ hotels.map (fun hotel => Widget.write ("- " ++ hotel))
  ++ [Widget.subheader "✈️ Flight Options"]
  ++ flights.map (fun flight => Widget.write ("- " ++ flight))
  ++ [Widget.subheader "🌦 Weather Forecast",
      Widget.write (pyStr weather),
      Widget.subheader "📝 Itinerary",
      Widget.markdown itinerary]

/-- One triggered run (`app.py` lines 81-181): the four lookups in program
order, the join of the attraction titles (which, like Python `str.join`, can
raise), the chain invocation, then either the full display sequence or the
single `st.error` banner produced by the outer except-handler.  Returns the
external calls made and the widgets shown. -/
def runApp (key : String) (o : Oracle) (t : Trip) : List ExtCall × List Widget :=
  let attractions := attractionsOf key o t
  let hotels := hotelsOf key o t
  let flights := flightsOf key o t
  let weather := weatherOf key o t
  match pyJoin ", " attractions with
  | .error e => (fourCalls key t, [Widget.error ("Error: " ++ e)])
  | .ok places =>
    let g := genCallArgs t places weather hotels flights
    match o.generate g with
    | .error e => (fourCalls key t ++ [ExtCall.generate g], [Widget.error ("Error: " ++ e)])
    | .ok itinerary =>
      (fourCalls key t ++ [ExtCall.generate g], displaySeq attractions hotels flights weather itinerary)

/-- A value is a non-empty display string. -/
def isNonEmptyDisplayStr : JVal → Bool
  | .str s => !(s == "")
  | _ => false

/-- The opening-brace character of a template placeholder. -/
def braceChar : Char := Char.ofNat 123

/-- Substring containment, on the character lists of the two strings. -/
def strContains (hay needle : String) : Prop :=
  ∃ pre post, hay.data = pre ++ needle.data ++ post

/-- Trip used by the concrete witness runs (the end-to-end example of the
specification). -/
def tripEx : Trip :=
  { departure := "DEL"
    destination := "Goa"
    start_date := "2024-12-01"
    end_date := "2024-12-05"
    budget := "50000"
    interests := "beach, food" }

/-- World in which every provider call returns an empty dict and the model
answers with a fixed plan. -/
def oracleEmpty : Oracle :=
  { serp := fun _ => .ok (.obj [])
    generate := fun _ => .ok "PLAN" }

/-- World in which the lookups succeed trivially and the chain invocation
raises. -/
def oracleGenFail : Oracle :=
  { serp := fun _ => .ok (.obj [])
    generate := fun _ => .error "LLM down" }

/-- World in which the attractions search returns one organic result without a
title field, and everything else returns an empty dict. -/
def oracleTitleless : Oracle :=
  { serp := fun q =>
      if q = attractionsQuery "K" tripEx then .ok (.obj [("organic_results", .arr [.obj []])])
      else .ok (.obj [])
    generate := fun _ => .ok "PLAN" }

/-- World in which only the attractions provider call raises. -/
def oracleAttrFail : Oracle :=
  { serp := fun q =>
      if q = attractionsQuery "K" tripEx then .error "connection reset"
      else .ok (.obj [])
    generate := fun _ => .ok "PLAN" }

lemma strJoin_data (l : List String) : (strJoin l).data = (l.map String.data).flatten := by
  induction l with
  | nil => rfl
  | cons s ss ih => simp [strJoin, String.data_append, ih]

lemma strContains_strJoin_of_mem {s : String} {l : List String} (h : s ∈ l) :
    strContains (strJoin l) s := by
  induction l with
  | nil => cases h
  | cons x xs ih =>
    rcases List.mem_cons.mp h with rfl | h2
    · exact ⟨[], (strJoin xs).data, by simp [strJoin, String.data_append]⟩
    · obtain ⟨pre, post, hp⟩ := ih h2
      exact ⟨x.data ++ pre, post, by simp [strJoin, String.data_append, hp]⟩

lemma mem_data_strJoin {c : Char} {l : List String} :
    c ∈ (strJoin l).data ↔ ∃ s ∈ l, c ∈ s.data := by
  rw [strJoin_data, List.mem_flatten]
  constructor
  · rintro ⟨lc, hlc, hc⟩
    obtain ⟨s, hs, rfl⟩ := List.mem_map.mp hlc
    exact ⟨s, hs, hc⟩
  · rintro ⟨s, hs, hc⟩
    exact ⟨s.data, List.mem_map.mpr ⟨s, hs, rfl⟩, hc⟩

lemma strContains.mem_data {hay needle : String} (h : strContains hay needle)
    {c : Char} (hc : c ∈ needle.data) : c ∈ hay.data := by
  obtain ⟨pre, post, hp⟩ := h
  rw [hp]
  simp [hc]

lemma pyListComp_ok_length {α β : Type} {f : α → Except String β} :
    ∀ {xs : List α} {ys : List β}, pyListComp f xs = .ok ys → ys.length = xs.length := by
  intro xs
  induction xs with
  | nil =>
    intro ys h
    simp only [pyListComp] at h
    cases h
    rfl
  | cons x xs ih =>
    intro ys h
    simp only [pyListComp, bind, Except.bind] at h
    cases hfx : f x with
    | error e => rw [hfx] at h; simp at h
    | ok y =>
      rw [hfx] at h
      cases hys : pyListComp f xs with
      | error e => rw [hys] at h; simp at h
      | ok ys2 =>
        rw [hys] at h
        simp only [pure, Except.pure, Except.ok.injEq] at h
        subst h
        simp [ih hys]

lemma pyListComp_ok_mem {α β : Type} {f : α → Except String β} :
    ∀ {xs : List α} {ys : List β}, pyListComp f xs = .ok ys →
      ∀ y ∈ ys, ∃ x ∈ xs, f x = .ok y := by
  intro xs
  induction xs with
  | nil =>
    intro ys h y hy
    simp only [pyListComp] at h
    cases h
    cases hy
  | cons x xs ih =>
    intro ys h y hy
    simp only [pyListComp, bind, Except.bind] at h
    cases hfx : f x with
    | error e => rw [hfx] at h; simp at h
    | ok y0 =>
      rw [hfx] at h
      cases hys : pyListComp f xs with
      | error e => rw [hys] at h; simp at h
      | ok ys2 =>
        rw [hys] at h
        simp only [pure, Except.pure, Except.ok.injEq] at h
        subst h
        rcases List.mem_cons.mp hy with rfl | hy2
        · exact ⟨x, List.mem_cons_self x xs, hfx⟩
        · obtain ⟨x2, hx2, hfx2⟩ := ih hys y hy2
          exact ⟨x2, List.mem_cons_of_mem x hx2, hfx2⟩

lemma pySlice5Iter_ok_length {j : JVal} {xs : List JVal}
    (h : pySlice5Iter j = .ok xs) : xs.length ≤ 5 := by
  cases j <;> simp only [pySlice5Iter] at h
  · cases h
  · cases h
  · cases h
  · cases h
    simp
  · cases h
    simp
  · cases h

lemma append_INR_ne_empty (a b : String) : a ++ " - " ++ b ++ " INR" ≠ "" := by
  intro h
  have hl := congrArg String.length h
  simp [String.length_append] at hl
  exact absurd hl.1.1.2 (by decide)

/-- Claim C1: when the provider call of any of the four lookups raises, the
lookup yields exactly its documented fixed fallback value, and the lookup
functions are total, so no exception escapes past the lookup boundary. -/
theorem claim_C1_lookup_fallbacks (e : String) :
    attractionsLookup (.error e) = [.str "No attractions found"] ∧
    hotelsLookup (.error e) = ["No hotels found"] ∧
    flightsLookup (.error e) = ["No flights found"] ∧
    weatherLookup (.error e) = .str "Weather API error" :=
  ⟨rfl, rfl, rfl, rfl⟩

lemma fetch_inv {β : Type} {resp : Except String JVal} {k : String} {d : JVal}
    {f : JVal → Except String β} {ys : List β}
    (h : (do
      let results ← resp
      let v ← pyGet results k d
      let items ← pySlice5Iter v
      pyListComp f items) = Except.ok ys) :
    ∃ items : List JVal, items.length ≤ 5 ∧ pyListComp f items = .ok ys := by
  cases resp with
  | error e => simp [bind, Except.bind] at h
  | ok results =>
    simp only [bind, Except.bind] at h
    split at h
    · simp at h
    · split at h
      · simp at h
      · rename_i v hv items hs
        exact ⟨items, pySlice5Iter_ok_length hs, h⟩

lemma attractionsBody_inv {rA : Except String JVal} {la : List JVal}
    (h : attractionsBody rA = .ok la) :
    ∃ items : List JVal, items.length ≤ 5 ∧
      pyListComp (fun res => pyGet res "title" JVal.null) items = .ok la := by
  simp only [attractionsBody] at h
  exact fetch_inv h

lemma hotelsBody_inv {rH : Except String JVal} {lh : List String}
    (h : hotelsBody rH = .ok lh) :
    ∃ items : List JVal, items.length ≤ 5 ∧
      pyListComp (fun hotel => do
        let name ← pyGet hotel "name" JVal.null
        let rate ← pyGet hotel "rate_per_night" (JVal.obj [])
        let lowest ← pyGet rate "lowest" (JVal.str "N/A")
        pure (pyStr name ++ " - " ++ pyStr lowest ++ " INR")) items = .ok lh := by
  simp only [hotelsBody] at h
  exact fetch_inv h

lemma flightsBody_inv {rF : Except String JVal} {lf : List String}
    (h : flightsBody rF = .ok lf) :
    ∃ items : List JVal, items.length ≤ 5 ∧
      pyListComp (fun flight => do
        let airline ← pyGet flight "airline" JVal.null
        let price ← pyGet flight "price" JVal.null
        pure (pyStr airline ++ " - " ++ pyStr price ++ " INR")) items = .ok lf := by
  simp only [flightsBody] at h
  exact fetch_inv h

lemma hotelElem_inv {hotel : JVal} {s : String}
    (h : (do
      let name ← pyGet hotel "name" JVal.null
      let rate ← pyGet hotel "rate_per_night" (JVal.obj [])
      let lowest ← pyGet rate "lowest" (JVal.str "N/A")
      pure (pyStr name ++ " - " ++ pyStr lowest ++ " INR")) = Except.ok s) :
    ∃ a b, s = a ++ " - " ++ b ++ " INR" := by
  simp only [bind, Except.bind] at h
  split at h
  · simp at h
  · split at h
    · simp at h
    · split at h
      · simp at h
      · simp only [pure, Except.pure, Except.ok.injEq] at h
        exact ⟨_, _, h.symm⟩

lemma flightElem_inv {flight : JVal} {s : String}
    (h : (do
      let airline ← pyGet flight "airline" JVal.null
      let price ← pyGet flight "price" JVal.null
      pure (pyStr airline ++ " - " ++ pyStr price ++ " INR")) = Except.ok s) :
    ∃ a b, s = a ++ " - " ++ b ++ " INR" := by
  simp only [bind, Except.bind] at h
  split at h
  · simp at h
  · split at h
    · simp at h
    · simp only [pure, Except.pure, Except.ok.injEq] at h
      exact ⟨_, _, h.symm⟩

/-- Claim C2 counterexample: a successful attractions lookup over a provider
result that lacks a `title` field yields the Python value `None` as a list
element, which is not a non-empty display string, refuting the claim that
every element of a successful lookup is a non-empty display string. -/
theorem claim_C2_cex :
    attractionsLookup (.ok (.obj [("organic_results", .arr [.obj []])])) = [JVal.null] ∧
    isNonEmptyDisplayStr JVal.null = false :=
  ⟨rfl, rfl⟩

/-- Claim C2 amended: every lookup that completes without entering its
exception handler yields at most five elements; hotel and flight elements are
always non-empty display strings of the shape `name - rate INR` resp.
`airline - price INR`; attraction elements are the raw `title` field values of
the provider results, which need not be strings at all (a missing title yields
`None`). -/
theorem claim_C2_amended (rA rH rF : Except String JVal)
    (la : List JVal) (lh lf : List String)
    (hA : attractionsBody rA = .ok la)
    (hH : hotelsBody rH = .ok lh)
    (hF : flightsBody rF = .ok lf) :
    la.length ≤ 5 ∧ lh.length ≤ 5 ∧ lf.length ≤ 5 ∧
    (∀ s ∈ lh, (∃ a b, s = a ++ " - " ++ b ++ " INR") ∧ s ≠ "") ∧
    (∀ s ∈ lf, (∃ a b, s = a ++ " - " ++ b ++ " INR") ∧ s ≠ "") ∧
    (∀ x ∈ la, ∃ res : JVal, pyGet res "title" JVal.null = .ok x) := by
  obtain ⟨itA, hlenA, hcompA⟩ := attractionsBody_inv hA
  obtain ⟨itH, hlenH, hcompH⟩ := hotelsBody_inv hH
  obtain ⟨itF, hlenF, hcompF⟩ := flightsBody_inv hF
  refine ⟨?_, ?_, ?_, ?_, ?_, ?_⟩
  · rw [pyListComp_ok_length hcompA]; exact hlenA
  · rw [pyListComp_ok_length hcompH]; exact hlenH
  · rw [pyListComp_ok_length hcompF]; exact hlenF
  · intro s hs
    obtain ⟨hotel, _, hfx⟩ := pyListComp_ok_mem hcompH s hs
    obtain ⟨a, b, rfl⟩ := hotelElem_inv hfx
    exact ⟨⟨a, b, rfl⟩, append_INR_ne_empty a b⟩
  · intro s hs
    obtain ⟨flight, _, hfx⟩ := pyListComp_ok_mem hcompF s hs
    obtain ⟨a, b, rfl⟩ := flightElem_inv hfx
    exact ⟨⟨a, b, rfl⟩, append_INR_ne_empty a b⟩
  · intro x hx
    obtain ⟨res, _, hfx⟩ := pyListComp_ok_mem hcompA x hx
    exact ⟨res, hfx⟩

/-- Witness for the amended claim C2, at a one-result response per lookup. -/
theorem claim_C2_amended_witness :
    ([JVal.str "Baga Beach"] : List JVal).length ≤ 5 ∧
    (["H1 - 5000 INR"] : List String).length ≤ 5 ∧
    (["IndiGo - 4500 INR"] : List String).length ≤ 5 ∧
    (∀ s ∈ (["H1 - 5000 INR"] : List String),
      (∃ a b, s = a ++ " - " ++ b ++ " INR") ∧ s ≠ "") ∧
    (∀ s ∈ (["IndiGo - 4500 INR"] : List String),
      (∃ a b, s = a ++ " - " ++ b ++ " INR") ∧ s ≠ "") ∧
    (∀ x ∈ ([JVal.str "Baga Beach"] : List JVal),
      ∃ res : JVal, pyGet res "title" JVal.null = .ok x) :=
  claim_C2_amended
    (.ok (.obj [("organic_results", .arr [.obj [("title", .str "Baga Beach")]])]))
    (.ok (.obj [("properties",
      .arr [.obj [("name", .str "H1"), ("rate_per_night", .obj [("lowest", .str "5000")])]])]))
    (.ok (.obj [("best_flights",
      .arr [.obj [("airline", .str "IndiGo"), ("price", .num 4500)]])]))
    [JVal.str "Baga Beach"] ["H1 - 5000 INR"] ["IndiGo - 4500 INR"]
    rfl rfl rfl

/-- Claim C3 counterexample: a well-formed hotels response whose single
property lacks both `name` and `rate_per_night` does not produce the fixed
fallback list; it produces the element `None - N/A INR` built from the
per-field defaults, refuting the claim that any missing field yields the
whole-list fallback. -/
theorem claim_C3_cex :
    hotelsLookup (.ok (.obj [("properties", .arr [.obj []])])) = ["None - N/A INR"] ∧
    (["None - N/A INR"] : List String) ≠ ["No hotels found"] :=
  ⟨rfl, by decide⟩

/-- Claim C3 amended: only a raised exception is folded into the fixed
fallback value.  Missing fields in a well-formed response are not: a hotel
without `name` or rate renders as `None - N/A INR`, a weather response without
an answer box yields the distinct string `Weather info not found`, and an
attractions result without `title` yields a `None` element which later crashes
prompt assembly, surfacing as the generic run error banner instead of being
swallowed. -/
theorem claim_C3_amended :
    (∀ e : String,
      attractionsLookup (.error e) = [.str "No attractions found"] ∧
      hotelsLookup (.error e) = ["No hotels found"] ∧
      flightsLookup (.error e) = ["No flights found"] ∧
      weatherLookup (.error e) = .str "Weather API error") ∧
    hotelsLookup (.ok (.obj [("properties", .arr [.obj []])])) = ["None - N/A INR"] ∧
    weatherLookup (.ok (.obj [])) = .str "Weather info not found" ∧
    attractionsLookup (.ok (.obj [("organic_results", .arr [.obj []])])) = [JVal.null] ∧
    (runApp "K" oracleTitleless tripEx).2 =
      [Widget.error "Error: TypeError: sequence item: expected str instance"] :=
  ⟨fun _ => ⟨rfl, rfl, rfl, rfl⟩, rfl, rfl, rfl, rfl⟩

/-- Claim C5 counterexample: the weather lookup does differentiate between
kinds of failure: a raised provider call folds to `Weather API error`, while a
well-formed response lacking a temperature yields the distinct value
`Weather info not found`, so not every failure is folded into one and the same
fallback value. -/
theorem claim_C5_cex :
    weatherLookup (.error "network unreachable") = .str "Weather API error" ∧
    weatherLookup (.ok (.obj [])) = .str "Weather info not found" ∧
    JVal.str "Weather API error" ≠ JVal.str "Weather info not found" :=
  ⟨rfl, rfl, by simp⟩

/-- Claim C5 amended: for the attractions, hotels and flights lookups every
raised failure is folded into the single per-lookup fallback, independent of
the error; the weather lookup distinguishes two failure kinds: any raised
failure folds to `Weather API error`, while a response without a truthy
temperature yields the distinct `Weather info not found`. -/
theorem claim_C5_amended :
    (∀ e e' : String,
      attractionsLookup (.error e) = attractionsLookup (.error e') ∧
      hotelsLookup (.error e) = hotelsLookup (.error e') ∧
      flightsLookup (.error e) = flightsLookup (.error e') ∧
      weatherLookup (.error e) = weatherLookup (.error e')) ∧
    (∀ e : String, weatherLookup (.error e) = .str "Weather API error") ∧
    weatherLookup (.ok (.obj [])) = .str "Weather info not found" ∧
    JVal.str "Weather API error" ≠ JVal.str "Weather info not found" :=
  ⟨fun _ _ => ⟨rfl, rfl, rfl, rfl⟩, fun _ => rfl, rfl, by simp⟩

/-- The generation call produced by a run over `oracleEmpty`. -/
def genEx : GenCall :=
  genCallArgs tripEx "" (JVal.str "Weather info not found") [] []

lemma runApp_generate_inv {key : String} {o : Oracle} {t : Trip} {g : GenCall}
    (h : ExtCall.generate g ∈ (runApp key o t).1) :
    ∃ places, pyJoin ", " (attractionsOf key o t) = .ok places ∧
      g = genCallArgs t places (weatherOf key o t) (hotelsOf key o t) (flightsOf key o t) := by
  simp only [runApp] at h
  split at h
  · simp [fourCalls] at h
  · rename_i places hplaces
    split at h
    · simp [fourCalls] at h
      exact ⟨places, hplaces, h⟩
    · simp [fourCalls] at h
      exact ⟨places, hplaces, h⟩

set_option maxRecDepth 10000 in
/-- Claim C4: whenever a run reaches the generation call, the generator is
invoked with exactly the ten values of that run (the six trip fields and the
four lookup results, list-valued ones joined with the fixed separator), the
filled prompt contains each of the ten values verbatim as a substring, and,
provided no substituted value itself contains a brace, no literal placeholder
of the form `\x7bname\x7d` remains in the prompt. -/
theorem claim_C4_prompt (key : String) (o : Oracle) (t : Trip) (g : GenCall)
    (h : ExtCall.generate g ∈ (runApp key o t).1) :
    (∃ places, pyJoin ", " (attractionsOf key o t) = .ok places ∧
      g = genCallArgs t places (weatherOf key o t) (hotelsOf key o t) (flightsOf key o t)) ∧
    (∀ v ∈ genCallVals g, strContains (promptOf g) v) ∧
    ((∀ v ∈ genCallVals g, braceChar ∉ v.data) →
      ∀ name : String, ¬ strContains (promptOf g) ("\x7b" ++ name ++ "\x7d")) := by
  refine ⟨runApp_generate_inv h, ?_, ?_⟩
  · intro v hv
    simp only [genCallVals, List.mem_cons, List.not_mem_nil, or_false] at hv
    rcases hv with rfl | rfl | rfl | rfl | rfl | rfl | rfl | rfl | rfl | rfl <;>
      exact strContains_strJoin_of_mem (by simp [promptSegments])
  · intro hfree name hcontains
    have hb : braceChar ∈ (("\x7b" : String)).data := by decide
    have hbn : braceChar ∈ ("\x7b" ++ name ++ "\x7d").data := by
      rw [String.data_append, String.data_append]
      exact List.mem_append_left _ (List.mem_append_left _ hb)
    have hhay : braceChar ∈ (promptOf g).data := hcontains.mem_data hbn
    simp only [promptOf] at hhay
    rw [mem_data_strJoin] at hhay
    obtain ⟨s, hs, hcs⟩ := hhay
    simp only [promptSegments, List.mem_cons, List.not_mem_nil, or_false] at hs
    rcases hs with rfl|rfl|rfl|rfl|rfl|rfl|rfl|rfl|rfl|rfl|rfl|rfl|rfl|rfl|rfl|rfl|rfl|rfl|rfl|rfl|rfl <;>
      first
        | exact absurd hcs (by decide)
        | exact absurd hcs (hfree _ (by simp [genCallVals]))

/-- Witness for claim C4: a concrete run over `oracleEmpty` reaching the
generation call with the example trip. -/
theorem claim_C4_prompt_witness :
    (∃ places, pyJoin ", " (attractionsOf "K" oracleEmpty tripEx) = .ok places ∧
      genEx = genCallArgs tripEx places (weatherOf "K" oracleEmpty tripEx)
        (hotelsOf "K" oracleEmpty tripEx) (flightsOf "K" oracleEmpty tripEx)) ∧
    (∀ v ∈ genCallVals genEx, strContains (promptOf genEx) v) ∧
    ((∀ v ∈ genCallVals genEx, braceChar ∉ v.data) →
      ∀ name : String, ¬ strContains (promptOf genEx) ("\x7b" ++ name ++ "\x7d")) :=
  claim_C4_prompt "K" oracleEmpty tripEx genEx (by decide)

/-- Claim C6: if the generation call raises after the four lookups have
completed, the operator sees exactly the single generic failure banner built
from the textual description of the error, and none of the lookup result
sections is rendered. -/
theorem claim_C6_generation_failure (key : String) (o : Oracle) (t : Trip)
    (places e : String)
    (hp : pyJoin ", " (attractionsOf key o t) = .ok places)
    (hg : o.generate (genCallArgs t places (weatherOf key o t)
      (hotelsOf key o t) (flightsOf key o t)) = .error e) :
    (runApp key o t).2 = [Widget.error ("Error: " ++ e)] := by
  simp [runApp, hp, hg]

/-- Witness for claim C6: the chain raising `LLM down` over trivially
succeeding lookups. -/
theorem claim_C6_generation_failure_witness :
    (runApp "K" oracleGenFail tripEx).2 = [Widget.error ("Error: " ++ "LLM down")] :=
  claim_C6_generation_failure "K" oracleGenFail tripEx "" "LLM down" rfl rfl

/-- Claim C7: each lookup result depends only on the provider response to its
own query, so two runs that agree on one lookup query response produce the
same value for that lookup no matter how the other provider calls behave (in
particular whether they fail), and every run issues all four lookup calls in
program order. -/
theorem claim_C7_independence (key : String) (t : Trip) (o₁ o₂ : Oracle) :
    (o₁.serp (attractionsQuery key t) = o₂.serp (attractionsQuery key t) →
      attractionsOf key o₁ t = attractionsOf key o₂ t) ∧
    (o₁.serp (hotelsQuery key t) = o₂.serp (hotelsQuery key t) →
      hotelsOf key o₁ t = hotelsOf key o₂ t) ∧
    (o₁.serp (flightsQuery key t) = o₂.serp (flightsQuery key t) →
      flightsOf key o₁ t = flightsOf key o₂ t) ∧
    (o₁.serp (weatherQuery key t) = o₂.serp (weatherQuery key t) →
      weatherOf key o₁ t = weatherOf key o₂ t) ∧
    (runApp key o₁ t).1.take 4 = fourCalls key t ∧
    (runApp key o₂ t).1.take 4 = fourCalls key t := by
  refine ⟨fun h => ?_, fun h => ?_, fun h => ?_, fun h => ?_, ?_, ?_⟩
  · simp [attractionsOf, h]
  · simp [hotelsOf, h]
  · simp [flightsOf, h]
  · simp [weatherOf, h]
  · simp only [runApp]
    split
    · simp [fourCalls]
    · split <;> simp [fourCalls]
  · simp only [runApp]
    split
    · simp [fourCalls]
    · split <;> simp [fourCalls]

/-- Witness for claim C7: a run whose attractions provider call raises against
a run where it succeeds; the other three lookup values coincide, both runs
issue all four lookup calls, and the two attraction values indeed differ. -/
theorem claim_C7_independence_witness :
    hotelsOf "K" oracleAttrFail tripEx = hotelsOf "K" oracleEmpty tripEx ∧
    flightsOf "K" oracleAttrFail tripEx = flightsOf "K" oracleEmpty tripEx ∧
    weatherOf "K" oracleAttrFail tripEx = weatherOf "K" oracleEmpty tripEx ∧
    (runApp "K" oracleAttrFail tripEx).1.take 4 = fourCalls "K" tripEx ∧
    (runApp "K" oracleEmpty tripEx).1.take 4 = fourCalls "K" tripEx ∧
    attractionsOf "K" oracleAttrFail tripEx ≠ attractionsOf "K" oracleEmpty tripEx := by
  have h := claim_C7_independence "K" tripEx oracleAttrFail oracleEmpty
  refine ⟨h.2.1 rfl, h.2.2.1 rfl, h.2.2.2.1 rfl, h.2.2.2.2.1, h.2.2.2.2.2, ?_⟩
  intro hcontra
  have h2 : (JVal.str "No attractions found" :: ([] : List JVal)) = ([] : List JVal) := hcontra
  exact List.noConfusion h2

/-- Claim C8 counterexample: a run whose attractions response contains one
organic result without a `title` makes only four external calls: the `None`
element makes the `join` in the chain invocation raise, so the generation call
never happens, refuting the claim that every triggered run executes five
external calls. -/
theorem claim_C8_cex :
    (runApp "K" oracleTitleless tripEx).1 = fourCalls "K" tripEx ∧
    (runApp "K" oracleTitleless tripEx).1.length = 4 ∧
    ((runApp "K" oracleTitleless tripEx).1.all
      (fun c => match c with | .serp _ => true | .generate _ => false)) = true :=
  ⟨rfl, rfl, rfl⟩

/-- Claim C8 amended: every triggered run executes the four provider calls
strictly sequentially in the fixed order attractions, hotels, flights,
weather; the generation call, when prompt assembly succeeds, is the fifth and
final external call; when prompt assembly raises, the generation call is
skipped.  The embedding is a sequential trace, so no two calls overlap. -/
theorem claim_C8_amended (key : String) (o : Oracle) (t : Trip) :
    (runApp key o t).1 = fourCalls key t ∨
    ∃ g, (runApp key o t).1 = fourCalls key t ++ [ExtCall.generate g] := by
  simp only [runApp]
  split
  · exact Or.inl rfl
  · split
    · exact Or.inr ⟨_, rfl⟩
    · exact Or.inr ⟨_, rfl⟩

/-- Claim C9: the six trip request fields reach both the lookup queries and
the generation call unchanged: any generation call of a run carries exactly
the collected trip fields, and the hotel and flight query parameters are
exactly the collected dates and cities. -/
theorem claim_C9_trip_preserved (key : String) (o : Oracle) (t : Trip) (g : GenCall)
    (h : ExtCall.generate g ∈ (runApp key o t).1) :
    g.departure = t.departure ∧ g.destination = t.destination ∧
    g.start_date = t.start_date ∧ g.end_date = t.end_date ∧
    g.budget = t.budget ∧ g.interests = t.interests ∧
    (hotelsQuery key t).params.lookup "check_in_date" = some t.start_date ∧
    (hotelsQuery key t).params.lookup "check_out_date" = some t.end_date ∧
    (flightsQuery key t).params.lookup "departure_id" = some t.departure ∧
    (flightsQuery key t).params.lookup "arrival_id" = some t.destination ∧
    (flightsQuery key t).params.lookup "outbound_date" = some t.start_date ∧
    (flightsQuery key t).params.lookup "return_date" = some t.end_date := by
  obtain ⟨places, hp, rfl⟩ := runApp_generate_inv h
  exact ⟨rfl, rfl, rfl, rfl, rfl, rfl, rfl, rfl, rfl, rfl, rfl, rfl⟩

/-- Witness for claim C9 at the concrete example run. -/
theorem claim_C9_trip_preserved_witness :
    genEx.departure = tripEx.departure ∧ genEx.destination = tripEx.destination ∧
    genEx.start_date = tripEx.start_date ∧ genEx.end_date = tripEx.end_date ∧
    genEx.budget = tripEx.budget ∧ genEx.interests = tripEx.interests ∧
    (hotelsQuery "K" tripEx).params.lookup "check_in_date" = some tripEx.start_date ∧
    (hotelsQuery "K" tripEx).params.lookup "check_out_date" = some tripEx.end_date ∧
    (flightsQuery "K" tripEx).params.lookup "departure_id" = some tripEx.departure ∧
    (flightsQuery "K" tripEx).params.lookup "arrival_id" = some tripEx.destination ∧
    (flightsQuery "K" tripEx).params.lookup "outbound_date" = some tripEx.start_date ∧
    (flightsQuery "K" tripEx).params.lookup "return_date" = some tripEx.end_date :=
  claim_C9_trip_preserved "K" oracleEmpty tripEx genEx (by decide)

/-- Claim C10: a provider call that returns successfully but lacks the
expected results key yields an empty list (not the fallback), a response with
fewer than five items yields a correspondingly shorter list, and the rendered
page then shows the lookup section header with zero bullet items, an outcome
distinct from both a populated list and the fallback. -/
theorem claim_C10_empty_results (kA kH kF : List (String × JVal))
    (hA : kA.lookup "organic_results" = none)
    (hH : kH.lookup "properties" = none)
    (hF : kF.lookup "best_flights" = none) :
    attractionsLookup (.ok (.obj kA)) = [] ∧
    hotelsLookup (.ok (.obj kH)) = [] ∧
    flightsLookup (.ok (.obj kF)) = [] ∧
    ([] : List JVal) ≠ [JVal.str "No attractions found"] ∧
    ([] : List String) ≠ ["No hotels found"] ∧
    ([] : List String) ≠ ["No flights found"] ∧
    flightsLookup (.ok (.obj [("best_flights",
      .arr [.obj [("airline", .str "IndiGo"), ("price", .num 4500)]])])) = ["IndiGo - 4500 INR"] ∧
    (runApp "K" oracleEmpty tripEx).2 =
      [Widget.success "✅ Itinerary generated!",
       Widget.subheader "📍 Suggested Attractions",
       Widget.subheader "🏨 Hotel Options",
       Widget.subheader "✈️ Flight Options",
       Widget.subheader "🌦 Weather Forecast",
       Widget.write "Weather info not found",
       Widget.subheader "📝 Itinerary",
       Widget.markdown "PLAN"] := by
  refine ⟨?_, ?_, ?_, by simp, by simp, by simp, rfl, rfl⟩
  · simp [attractionsLookup, attractionsBody, pyGet, pySlice5Iter, pyListComp, hA,
      bind, Except.bind]
  · simp [hotelsLookup, hotelsBody, pyGet, pySlice5Iter, pyListComp, hH,
      bind, Except.bind]
  · simp [flightsLookup, flightsBody, pyGet, pySlice5Iter, pyListComp, hF,
      bind, Except.bind]

/-- Witness for claim C10 at responses that are empty dicts. -/
theorem claim_C10_empty_results_witness :
    attractionsLookup (.ok (.obj [])) = [] ∧
    hotelsLookup (.ok (.obj [])) = [] ∧
    flightsLookup (.ok (.obj [])) = [] ∧
    ([] : List JVal) ≠ [JVal.str "No attractions found"] ∧
    ([] : List String) ≠ ["No hotels found"] ∧
    ([] : List String) ≠ ["No flights found"] ∧
    flightsLookup (.ok (.obj [("best_flights",
      .arr [.obj [("airline", .str "IndiGo"), ("price", .num 4500)]])])) = ["IndiGo - 4500 INR"] ∧
    (runApp "K" oracleEmpty tripEx).2 =
      [Widget.success "✅ Itinerary generated!",
       Widget.subheader "📍 Suggested Attractions",
       Widget.subheader "🏨 Hotel Options",
       Widget.subheader "✈️ Flight Options",
       Widget.subheader "🌦 Weather Forecast",
       Widget.write "Weather info not found",
       Widget.subheader "📝 Itinerary",
       Widget.markdown "PLAN"] :=
  claim_C10_empty_results [] [] [] rfl rfl rfl
